import Mathlib

/-
Verification of the AirControlBase Home Assistant integration.

This file is a shallow embedding, in Lean 4, of the pieces of the
integration that the specification talks about:

  * `custom_components/aircontrolbase/api.py`    — the HTTP API client
    (`AirControlBaseAPI`: `login`, `control_device`, `get_devices`,
    `test_connection`);
  * `custom_components/aircontrolbase/__init__.py` — the update
    coordinator (`async_update_data`, 30-second update interval);
  * `custom_components/aircontrolbase/config_flow.py` — the config flow
    (`async_step_user`);
  * `custom_components/aircontrolbase/climate.py` — the climate entity
    (`AirControlBaseClimate`: mode / fan translation, properties).

Modelling conventions:

  * JSON values are the inductive `JVal`; a parsed JSON object body is a
    `JObj` (association list).  Python's `dict.get(k)` returning `None`
    for a missing key is `jget`, which returns `JVal.null`.
  * Each HTTP attempt made by the client is summarised by the response
    the environment would give it: `Option HttpResponse`, where `none`
    models a network/timeout exception and `HttpResponse.body = none`
    models a body that is not a JSON object (so `response.json()` or the
    first attribute access on the result raises — both travel the same
    `except` path in the source).
  * Every API method is a function from the current client state and the
    environment's responses to a `CallResult`: the returned value or
    raised error, the new client state, and the list of HTTP requests
    actually issued (tagged with their body encoding, JSON or form).
  * Python truthiness (`if not self._user_id`, `if self._session_id`,
    truthy tests on JSON values) is modelled by `jtruthy`.
  * Wall-clock time (`int(time.time() * 1000)`) is passed in explicitly
    as an integer parameter `now`, in milliseconds.
-/

set_option autoImplicit false
set_option linter.unusedVariables false

/-! ## JSON values -/

/-- A JSON value, as produced by `response.json()`. -/
inductive JVal where
  | null
  | int (n : Int)
  | str (s : String)
  | bool (b : Bool)
  | arr (xs : List JVal)
  | obj (fs : List (String × JVal))

/-- A parsed JSON object body: its list of fields. -/
abbrev JObj := List (String × JVal)

/-- `d.get(k)`: the value at key `k`, or `None` for a missing key. -/
def jget : JObj → String → JVal
  | [], _ => JVal.null
  | (k, v) :: rest, key => if k = key then v else jget rest key

/-- `k in d` for a dict. -/
def jhasKey : JObj → String → Bool
  | [], _ => false
  | (k, _) :: rest, key => k = key || jhasKey rest key

/-- `d[k] = v`: replace the value at `k`, or append a new entry. -/
def jset : JObj → String → JVal → JObj
  | [], key, v => [(key, v)]
  | (k, w) :: rest, key, v =>
    if k = key then (key, v) :: rest else (k, w) :: jset rest key v

/-- Python truthiness of a JSON value (`None`, `0`, `""`, `False`, empty
containers are falsy). -/
def jtruthy : JVal → Bool
  | JVal.null => false
  | JVal.int n => n != 0
  | JVal.str s => s != ""
  | JVal.bool b => b
  | JVal.arr xs => !xs.isEmpty
  | JVal.obj fs => !fs.isEmpty

/-- Python `v == n` against an int literal (only an int compares equal). -/
def jeqInt : JVal → Int → Bool
  | JVal.int m, n => m == n
  | _, _ => false

/-- Python `v == s` against a string literal. -/
def jeqStr : JVal → String → Bool
  | JVal.str t, s => t == s
  | _, _ => false

/-- Python `v is True`: an identity test, true only for the value `True`. -/
def jisTrue : JVal → Bool
  | JVal.bool b => b
  | _ => false

/-- `v.get(k)` on a nested value that the source has already established
to be a dict (guarded accesses). -/
def JVal.getField : JVal → String → JVal
  | JVal.obj fs, k => jget fs k
  | _, _ => JVal.null

/-- `v.get(k)` where `v` may not be a dict: Python raises
`AttributeError` then. -/
def pyGetAttr : JVal → String → Except String JVal
  | JVal.obj fs, k => Except.ok (jget fs k)
  | _, _ => Except.error "AttributeError"

/-- `v.get(k, d)` where `v` may not be a dict. -/
def pyGetAttrD : JVal → String → JVal → Except String JVal
  | JVal.obj fs, k, d =>
    Except.ok (if jhasKey fs k then jget fs k else d)
  | _, _, _ => Except.error "AttributeError"

/-- `k in v` on a nested value; on a non-container Python raises
`TypeError` (string membership is substring search, which the vendor
responses never exercise; it is modelled as a raise as well). -/
def pyContains : JVal → String → Except String Bool
  | JVal.obj fs, k => Except.ok (jhasKey fs k)
  | _, _ => Except.error "TypeError"

/-- Iterating a value (`for x in v`, `list.extend(v)`): only an array
iterates into elements; anything else raises on iteration or in the
loop body. -/
def pyIter : JVal → Except String (List JVal)
  | JVal.arr xs => Except.ok xs
  | _ => Except.error "TypeError"

/-- `Except` success as a `Bool`. -/
def exceptOk {ε α : Type} : Except ε α → Bool
  | Except.ok _ => true
  | Except.error _ => false

/-! ## The HTTP world -/

/-- Body encoding of a request issued by the client: `json=data` or
`data=data`. -/
inductive ReqKind where
  | json
  | form
deriving DecidableEq, Repr

/-- What the environment answers a single HTTP attempt with.  `body =
none` models a response whose body is not a JSON object. -/
structure HttpResponse where
  status : Nat
  body : Option JObj
  setCookies : List String

/-- `'; '.join(cookies)` (the `if cookies else ""` branch in the source
yields the same value, since joining the empty list gives `""`). -/
def joinCookies (cs : List String) : String := String.intercalate "; " cs

/-! ## API client state (`AirControlBaseAPI.__init__`) -/

/-- Default of the `avoid_refresh_status_on_update_in_ms` constructor
argument (also `DEFAULT_AVOID_REFRESH_STATUS_ON_UPDATE_IN_MS` in
`const.py`). -/
def defaultAvoidRefreshMs : Int := 5000

/-- The mutable attributes of `AirControlBaseAPI`. -/
structure APIState where
  email : String
  password : String
  user_id : JVal
  session_id : Option String
  last_update_time : Int
  avoid_refresh_status_on_update_in_ms : Int

/-- `AirControlBaseAPI(email, password, session, avoid)`. -/
def APIState.init (email password : String) (avoid : Int) : APIState :=
  { email := email
    password := password
    user_id := JVal.null
    session_id := none
    last_update_time := 0
    avoid_refresh_status_on_update_in_ms := avoid }

/-- Outcome of one API method call: the returned value or raised error,
the state after the call, and the HTTP attempts that were issued. -/
structure CallResult (α : Type) where
  result : Except String α
  state : APIState
  requests : List ReqKind

namespace AirControlBaseAPI

/-! ### Response success checks (api.py lines 63-68, 109-110, 155-156,
173, 213-214, 237) -/

/-- `login`'s primary-path success check (lines 63-68). -/
def login_primary_ok (r : JObj) : Bool :=
  jeqInt (jget r "code") 0 || jeqStr (jget r "code") "0" ||
  jeqInt (jget r "code") 200 || jeqStr (jget r "code") "200" ||
  jisTrue (jget r "success") || jeqStr (jget r "status") "success"

/-- `login`'s fallback-path success check (lines 109-110). -/
def login_fallback_ok (r : JObj) : Bool :=
  jeqInt (jget r "code") 0 || jeqStr (jget r "code") "0" ||
  jisTrue (jget r "success")

/-- `control_device`'s primary-path success check (lines 155-156). -/
def control_primary_ok (r : JObj) : Bool :=
  jeqInt (jget r "code") 0 || jeqStr (jget r "code") "0" ||
  jisTrue (jget r "success")

/-- `control_device`'s fallback-path success check (line 173): only the
integer `0`. -/
def control_fallback_ok (r : JObj) : Bool :=
  jeqInt (jget r "code") 0

/-- `get_devices`' primary-path success check (lines 213-214). -/
def get_devices_primary_ok (r : JObj) : Bool :=
  jeqInt (jget r "code") 0 || jeqStr (jget r "code") "0" ||
  jisTrue (jget r "success")

/-- `get_devices`' fallback-path success check (line 237): only the
integer `0`. -/
def get_devices_fallback_ok (r : JObj) : Bool :=
  jeqInt (jget r "code") 0

/-! ### `login` (api.py lines 30-120) -/

/-- User-id extraction on `login`'s primary path (lines 70-79); a raise
anywhere here is caught by the outer `except` and sends `login` to its
fallback attempt. -/
def extractUserId (result : JObj) : Except String JVal := do
  let cond ←
    if jhasKey result "result" then pyContains (jget result "result") "id"
    else pure false
  if cond then
    pure ((jget result "result").getField "id")
  else if jhasKey result "user_id" then
    pure (jget result "user_id")
  else if jhasKey result "userId" then
    pure (jget result "userId")
  else
    Except.error "No user ID in response"

/-- The JSON-body login attempt (lines 40-93): HTTP 200 required, body
parsed, success check, user id extracted, session cookie recorded. -/
def loginPrimary (st : APIState) (resp : Option HttpResponse) :
    Except String APIState :=
  match resp with
  | none => Except.error "network error"
  | some r =>
    if r.status ≠ 200 then Except.error "HTTP error"
    else
      match r.body with
      | none => Except.error "Invalid response format"
      | some result =>
        if login_primary_ok result then
          match extractUserId result with
          | Except.error e => Except.error e
          | Except.ok uid =>
            Except.ok { st with
              user_id := uid
              session_id := some (joinCookies r.setCookies) }
        else Except.error "Login failed"

/-- `result.get("result", {}).get("id") or result.get("user_id")`
(line 111). -/
def loginFallbackUid (result : JObj) : Except String JVal := do
  let res := if jhasKey result "result" then jget result "result"
             else JVal.obj []
  let a ← pyGetAttr res "id"
  pure (if jtruthy a then a else jget result "user_id")

/-- The form-encoded fallback attempt plus the final
`Authentication failed` raise (lines 97-120), entered whenever the
primary attempt raised `e`. -/
def loginFallbackStep (st : APIState) (e : String)
    (fresp : Option HttpResponse) : CallResult Unit :=
  let failed : CallResult Unit :=
    { result := Except.error ("Authentication failed: " ++ e)
      state := st
      requests := [ReqKind.json, ReqKind.form] }
  match fresp with
  | none => failed
  | some r =>
    if r.status = 200 then
      match r.body with
      | none => failed
      | some result =>
        if login_fallback_ok result then
          match loginFallbackUid result with
          | Except.error _ => failed
          | Except.ok uid =>
            { result := Except.ok ()
              state := { st with
                user_id := uid
                session_id := some (joinCookies r.setCookies) }
              requests := [ReqKind.json, ReqKind.form] }
        else failed
    else failed

/-- `AirControlBaseAPI.login` (lines 30-120): the JSON attempt, and on
any failure exactly one form-encoded fallback attempt. -/
def login (st : APIState) (presp fresp : Option HttpResponse) :
    CallResult Unit :=
  match loginPrimary st presp with
  | Except.ok st1 =>
    { result := Except.ok (), state := st1, requests := [ReqKind.json] }
  | Except.error e => loginFallbackStep st e fresp

/-! ### `control_device` (api.py lines 122-178) -/

/-- The form-encoded fallback attempt plus the final
`Device control failed` raise (lines 162-178), entered when the primary
attempt raised `e`; `st` already carries the advanced
`last_update_time`. -/
def controlFallbackStep (st : APIState) (e : String)
    (fresp : Option HttpResponse) : CallResult Unit :=
  let failed : CallResult Unit :=
    { result := Except.error ("Device control failed: " ++ e)
      state := st
      requests := [ReqKind.json, ReqKind.form] }
  match fresp with
  | none => failed
  | some r =>
    if r.status = 200 then
      match r.body with
      | none => failed
      | some result =>
        if control_fallback_ok result then
          { result := Except.ok (), state := st
            requests := [ReqKind.json, ReqKind.form] }
        else failed
    else failed

/-- `AirControlBaseAPI.control_device` (lines 122-178): authentication
check, then `last_update_time` is advanced to `now` (line 127) before
the JSON attempt; on any failure one form-encoded fallback attempt.
The `control` and `operation` payloads only feed the request body. -/
def control_device (st : APIState) (now : Int)
    (control operation : JVal) (presp fresp : Option HttpResponse) :
    CallResult Unit :=
  if !jtruthy st.user_id then
    { result := Except.error "Not authenticated - please login first"
      state := st, requests := [] }
  else
    let st1 := { st with last_update_time := now }
    match presp with
    | none => controlFallbackStep st1 "network error" fresp
    | some r =>
      if r.status ≠ 200 then
        controlFallbackStep st1 "HTTP error" fresp
      else
        match r.body with
        | none => controlFallbackStep st1 "Invalid response format" fresp
        | some result =>
          if control_primary_ok result then
            { result := Except.ok (), state := st1
              requests := [ReqKind.json] }
          else controlFallbackStep st1 "Control failed" fresp

/-! ### `get_devices` (api.py lines 180-246) -/

/-- Device extraction from a successful body (lines 215-219 and
238-241): every area's `data` entries, concatenated; a raise anywhere
here is caught by the enclosing `except`. -/
def extractDevices (result : JObj) : Except String (List JVal) := do
  let res := if jhasKey result "result" then jget result "result"
             else JVal.obj []
  let areas ← pyGetAttr res "areas"
  if jtruthy areas then
    let as ← pyIter areas
    as.foldlM (fun acc area => do
      let dataV ← pyGetAttrD area "data" (JVal.arr [])
      let ds ← pyIter dataV
      pure (acc ++ ds)) []
  else
    pure []

/-- The form-encoded fallback attempt plus the final
`Failed to get devices` raise (lines 226-246). -/
def getDevicesFallbackStep (st : APIState) (e : String)
    (fresp : Option HttpResponse) : CallResult (List JVal) :=
  let failed : CallResult (List JVal) :=
    { result := Except.error ("Failed to get devices: " ++ e)
      state := st
      requests := [ReqKind.json, ReqKind.form] }
  match fresp with
  | none => failed
  | some r =>
    if r.status = 200 then
      match r.body with
      | none => failed
      | some result =>
        if get_devices_fallback_ok result then
          match extractDevices result with
          | Except.ok ds =>
            { result := Except.ok ds, state := st
              requests := [ReqKind.json, ReqKind.form] }
          | Except.error _ => failed
        else failed
    else failed

/-- `AirControlBaseAPI.get_devices` (lines 180-246): the throttle window
check comes first (lines 182-187) and returns `[]` with no request at
all; then the authentication check; then the JSON attempt with one
form-encoded fallback. -/
def get_devices (st : APIState) (now : Int)
    (presp fresp : Option HttpResponse) : CallResult (List JVal) :=
  if st.last_update_time > 0 &&
      now - st.last_update_time < st.avoid_refresh_status_on_update_in_ms
  then
    { result := Except.ok [], state := st, requests := [] }
  else if !jtruthy st.user_id then
    { result := Except.error "Not authenticated - please login first"
      state := st, requests := [] }
  else
    match presp with
    | none => getDevicesFallbackStep st "network error" fresp
    | some r =>
      if r.status ≠ 200 then
        getDevicesFallbackStep st "HTTP error" fresp
      else
        match r.body with
        | none => getDevicesFallbackStep st "Invalid response format" fresp
        | some result =>
          if get_devices_primary_ok result then
            match extractDevices result with
            | Except.ok ds =>
              { result := Except.ok ds, state := st
                requests := [ReqKind.json] }
            | Except.error e => getDevicesFallbackStep st e fresp
          else getDevicesFallbackStep st "Failed to get devices" fresp

/-! ### `test_connection` (api.py lines 248-257) -/

/-- `AirControlBaseAPI.test_connection`: `login` then `get_devices`;
`True` exactly when neither raises, `False` otherwise (every exception
is caught).  `lp, lf` answer `login`'s two possible attempts and
`dp, df` answer `get_devices`'. -/
def test_connection (st : APIState) (now : Int)
    (lp lf dp df : Option HttpResponse) : Bool × APIState :=
  let lres := login st lp lf
  match lres.result with
  | Except.error _ => (false, lres.state)
  | Except.ok _ =>
    let dres := get_devices lres.state now dp df
    match dres.result with
    | Except.error _ => (false, dres.state)
    | Except.ok _ => (true, dres.state)

end AirControlBaseAPI

/-! ## The update coordinator (`__init__.py`) -/

namespace Coordinator

/-- The methods `class AirControlBaseAPI` actually defines
(`custom_components/aircontrolbase/api.py`), besides `__init__`. -/
def apiClientMethods : List String :=
  ["login", "control_device", "get_devices", "test_connection"]

/-- `update_interval=timedelta(seconds=30)` (`__init__.py` line 56). -/
def update_interval_seconds : Nat := 30

/-- `async_update_data` (`__init__.py` lines 40-49).  The method body
calls `api.ensure_authenticated()` and then `api.getDetails()`; an
attribute lookup of a method the API client does not define raises
`AttributeError`, which the `except` clause rewraps as `UpdateFailed`.
Were both methods present, the refresh would return the fetched device
list (modelled here by the client's actual listing call,
`get_devices`). -/
def async_update_data (st : APIState) (now : Int)
    (presp fresp : Option HttpResponse) : Except String (List JVal) :=
  if apiClientMethods.contains "ensure_authenticated" &&
      apiClientMethods.contains "getDetails" then
    match (AirControlBaseAPI.get_devices st now presp fresp).result with
    | Except.ok ds => Except.ok ds
    | Except.error e => Except.error ("Error fetching data: " ++ e)
  else
    Except.error "Error fetching data: AttributeError"

end Coordinator

/-! ## The config flow (`config_flow.py`) -/

namespace ConfigFlow

/-- The user's input in the `user` step. -/
structure Credentials where
  email : String
  password : String

/-- Outcome of `async_step_user`: either a created config entry
(`async_create_entry(title=email, data=user_input)`) or the form shown
again, with `errors["base"]` when validation failed. -/
inductive FlowResult where
  | createEntry (title : String) (email password : String)
  | showForm (error : Option String)

/-- `AirControlBaseConfigFlow.async_step_user` (`config_flow.py` lines
25-69).  With input, a fresh API client is built (constructor default
throttle window) and `test_connection` decides between creating the
entry and re-showing the form with `errors["base"] = "invalid_auth"`;
`test_connection` itself catches every exception, so the flow's own
`except` branch is not reachable through it. -/
def async_step_user (user_input : Option Credentials) (now : Int)
    (lp lf dp df : Option HttpResponse) : FlowResult :=
  match user_input with
  | none => FlowResult.showForm none
  | some cred =>
    let st := APIState.init cred.email cred.password defaultAvoidRefreshMs
    if (AirControlBaseAPI.test_connection st now lp lf dp df).1 then
      FlowResult.createEntry cred.email cred.email cred.password
    else
      FlowResult.showForm (some "invalid_auth")

end ConfigFlow

/-! ## The climate entity (`climate.py`) -/

namespace AirControlBaseClimate

/-- Host climate modes that appear in this integration. -/
inductive HVACMode where
  | off
  | cool
  | heat
  | dry
  | fan_only
deriving DecidableEq, Repr

/-- Host climate entity feature flags that appear in the host's
`ClimateEntityFeature` enum and matter here. -/
inductive ClimateEntityFeature where
  | TARGET_TEMPERATURE
  | FAN_MODE
  | SWING_MODE
deriving DecidableEq, Repr

/-- `self._attr_supported_features` (climate.py lines 59-62):
`TARGET_TEMPERATURE | FAN_MODE`. -/
def supported_features : List ClimateEntityFeature :=
  [ClimateEntityFeature.TARGET_TEMPERATURE, ClimateEntityFeature.FAN_MODE]

/-- `self._attr_hvac_modes` (climate.py lines 66-72). -/
def hvac_modes : List HVACMode :=
  [HVACMode.off, HVACMode.cool, HVACMode.heat, HVACMode.dry,
   HVACMode.fan_only]

/-- The control operations `AirControlBaseClimate` defines (its `async_*`
service methods, climate.py lines 153-255). -/
def entityOperations : List String :=
  ["async_update", "async_set_temperature", "async_set_hvac_mode",
   "async_set_fan_mode"]

/-- The `fan_modes` property (climate.py lines 143-146). -/
def fan_modes : List String := ["auto", "low", "medium", "high"]

/-- `mode_map` in `async_set_hvac_mode` (climate.py lines 191-197): host
mode to vendor `mode` string. -/
def mode_map : HVACMode → String
  | HVACMode.off => "off"
  | HVACMode.cool => "cool"
  | HVACMode.heat => "heat"
  | HVACMode.dry => "dry"
  | HVACMode.fan_only => "fan"

/-- The `is_on` property (climate.py lines 130-135). -/
def is_on (dev : JObj) : Bool := jeqStr (jget dev "power") "y"

/-- The `hvac_mode` property (climate.py lines 101-115): vendor `mode`
string back to host mode, `OFF` when the device is off or the string is
unrecognised. -/
def hvac_mode (dev : JObj) : HVACMode :=
  if !is_on dev then HVACMode.off
  else if jeqStr (jget dev "mode") "cool" then HVACMode.cool
  else if jeqStr (jget dev "mode") "heat" then HVACMode.heat
  else if jeqStr (jget dev "mode") "fan_only" then HVACMode.fan_only
  else if jeqStr (jget dev "mode") "dry" then HVACMode.dry
  else HVACMode.off

/-- The `fan_mode` property (climate.py lines 137-141): vendor `wind`
value, with `"mid"` renamed to `"medium"`. -/
def fan_mode (dev : JObj) : JVal :=
  if jeqStr (jget dev "wind") "mid" then JVal.str "medium"
  else jget dev "wind"

/-- `api_mode` in `async_set_fan_mode` (climate.py line 237): host fan
mode to vendor `wind` value, `"medium"` renamed back to `"mid"`. -/
def api_fan_mode (f : String) : String :=
  if f = "medium" then "mid" else f

/-- Outcome of one entity service call: the device dict afterwards, the
API client state afterwards, whether the `control_device` call
completed without raising, and the HTTP requests it issued. -/
structure SetResult where
  device : JObj
  api : APIState
  ok : Bool
  requests : List ReqKind

/-- `AirControlBaseClimate.async_set_hvac_mode` (climate.py lines
189-228): builds `operation_data` from a copy of the device dict with
the vendor mode, the power flag, and — when turning a powered-off
device on — `wind = "auto"`; sends it with `control_data =
{"control": "mode"}`; on success mirrors the same fields into the local
device dict, on failure only logs. -/
def async_set_hvac_mode (api : APIState) (dev : JObj) (m : HVACMode)
    (now : Int) (presp fresp : Option HttpResponse) : SetResult :=
  let power : String := if m = HVACMode.off then "n" else "y"
  let base := jset (jset dev "mode" (JVal.str (mode_map m)))
    "power" (JVal.str power)
  let operation_data :=
    if m ≠ HVACMode.off && jeqStr (jget dev "power") "n" then
      jset base "wind" (JVal.str "auto")
    else base
  let control_data : JObj := [("control", JVal.str "mode")]
  let res := AirControlBaseAPI.control_device api now
    (JVal.obj control_data) (JVal.obj operation_data) presp fresp
  let success := exceptOk res.result
  let d1 := jset dev "mode" (JVal.str (mode_map m))
  let d2 := jset d1 "power" (jget operation_data "power")
  let d3 := if jhasKey operation_data "wind" then
      jset d2 "wind" (jget operation_data "wind")
    else d2
  { device := if success then d3 else dev, api := res.state
    ok := success, requests := res.requests }

/-- `AirControlBaseClimate.async_set_fan_mode` (climate.py lines
230-255): rejects fan modes outside the supported list, renames
`"medium"` to `"mid"`, sends the whole device dict with the new `wind`,
and on success mirrors the new `wind` into the local device dict. -/
def async_set_fan_mode (api : APIState) (dev : JObj) (f : String)
    (now : Int) (presp fresp : Option HttpResponse) : SetResult :=
  if !(["low", "medium", "high", "auto"].contains f) then
    { device := dev, api := api, ok := false, requests := [] }
  else
    let api_mode := api_fan_mode f
    let control_data : JObj := [("id", jget dev "id")]
    let operation_data := jset dev "wind" (JVal.str api_mode)
    let res := AirControlBaseAPI.control_device api now
      (JVal.obj control_data) (JVal.obj operation_data) presp fresp
    let success := exceptOk res.result
    { device := if success then jset dev "wind" (JVal.str api_mode)
        else dev
      api := res.state, ok := success, requests := res.requests }

end AirControlBaseClimate

/-! ## Specification predicates and concrete fixtures -/

/-- Success of `login`'s form-encoded fallback attempt, as a predicate
on the response the environment would give it: HTTP 200, a JSON body,
the fallback success check, and a user-id expression that does not
raise. -/
def loginFallbackSucceeds (fresp : Option HttpResponse) : Bool :=
  match fresp with
  | none => false
  | some r =>
    r.status = 200 &&
    (match r.body with
     | none => false
     | some result =>
       AirControlBaseAPI.login_fallback_ok result &&
       exceptOk (AirControlBaseAPI.loginFallbackUid result))

/-- A client state in which a login has succeeded. -/
def authedState : APIState :=
  { APIState.init "user@example.com" "pw" 5000 with
    user_id := JVal.int 42
    session_id := some "JSESSIONID=abc" }

/-- A concrete device dict as delivered inside an area's `data`. -/
def dev0 : JObj :=
  [("id", JVal.int 1), ("power", JVal.str "y"),
   ("mode", JVal.str "cool"), ("wind", JVal.str "low")]

/-- A response that satisfies `control_device`'s primary success
check. -/
def goodControlResp : Option HttpResponse :=
  some { status := 200, body := some [("code", JVal.int 0)]
         setCookies := [] }

/-- A response that satisfies `login`'s fallback success check and
carries a user id and a session cookie. -/
def goodLoginFallbackResp : Option HttpResponse :=
  some { status := 200
         body := some [("code", JVal.int 0), ("user_id", JVal.int 7)]
         setCookies := ["JSESSIONID=xyz"] }

/-! ## Helper lemmas -/

theorem jget_jset_same (d : JObj) (k : String) (v : JVal) :
    jget (jset d k v) k = v := by
  induction d with
  | nil => simp [jset, jget]
  | cons kv rest ih =>
    obtain ⟨k1, v1⟩ := kv
    by_cases h : k1 = k
    · simp [jset, jget, h]
    · simp [jset, jget, h, ih]

theorem jget_jset_ne (d : JObj) (k k' : String) (v : JVal)
    (h : k ≠ k') : jget (jset d k v) k' = jget d k' := by
  induction d with
  | nil => simp [jset, jget, h]
  | cons kv rest ih =>
    obtain ⟨k1, v1⟩ := kv
    by_cases h1 : k1 = k
    · subst h1
      simp [jset, jget, h]
    · simp [jset, jget, h1, ih]

theorem controlFallbackStep_state (st : APIState) (e : String)
    (f : Option HttpResponse) :
    (AirControlBaseAPI.controlFallbackStep st e f).state = st := by
  unfold AirControlBaseAPI.controlFallbackStep
  cases f with
  | none => rfl
  | some r =>
    dsimp only
    split
    · split
      · rfl
      · split <;> rfl
    · rfl

theorem getDevicesFallbackStep_state (st : APIState) (e : String)
    (f : Option HttpResponse) :
    (AirControlBaseAPI.getDevicesFallbackStep st e f).state = st := by
  unfold AirControlBaseAPI.getDevicesFallbackStep
  cases f with
  | none => rfl
  | some r =>
    dsimp only
    split
    · split
      · rfl
      · split
        · split <;> rfl
        · rfl
    · rfl

theorem control_device_state_eq (st : APIState) (now : Int) (c o : JVal)
    (p f : Option HttpResponse) (h : jtruthy st.user_id = true) :
    (AirControlBaseAPI.control_device st now c o p f).state =
      { st with last_update_time := now } := by
  unfold AirControlBaseAPI.control_device
  simp only [h, Bool.not_true, Bool.false_eq_true, if_false]
  cases p with
  | none => exact controlFallbackStep_state _ _ _
  | some r =>
    dsimp only
    split
    · exact controlFallbackStep_state _ _ _
    · split
      · exact controlFallbackStep_state _ _ _
      · split
        · rfl
        · exact controlFallbackStep_state _ _ _

theorem loginPrimary_ok_session (st : APIState) (p : Option HttpResponse)
    (st1 : APIState)
    (h : AirControlBaseAPI.loginPrimary st p = Except.ok st1) :
    st1.session_id.isSome = true := by
  unfold AirControlBaseAPI.loginPrimary at h
  cases p with
  | none => exact Except.noConfusion h
  | some r =>
    dsimp only at h
    split at h
    · exact Except.noConfusion h
    · split at h
      · exact Except.noConfusion h
      · split at h
        · split at h
          · exact Except.noConfusion h
          · injection h with h1
            subst h1
            rfl
        · exact Except.noConfusion h

theorem loginFallbackStep_requests (st : APIState) (e : String)
    (f : Option HttpResponse) :
    (AirControlBaseAPI.loginFallbackStep st e f).requests =
      [ReqKind.json, ReqKind.form] := by
  cases f with
  | none => rfl
  | some r =>
    by_cases hs : r.status = 200
    · cases hb : r.body with
      | none => simp [AirControlBaseAPI.loginFallbackStep, hs, hb]
      | some result =>
        by_cases hc : AirControlBaseAPI.login_fallback_ok result
        · cases hu : AirControlBaseAPI.loginFallbackUid result with
          | error e2 =>
            simp [AirControlBaseAPI.loginFallbackStep, hs, hb, hc, hu]
          | ok uid =>
            simp [AirControlBaseAPI.loginFallbackStep, hs, hb, hc, hu]
        · simp [AirControlBaseAPI.loginFallbackStep, hs, hb, hc]
    · simp [AirControlBaseAPI.loginFallbackStep, hs]

theorem loginFallbackStep_ok (st : APIState) (e : String)
    (f : Option HttpResponse) :
    exceptOk (AirControlBaseAPI.loginFallbackStep st e f).result =
      loginFallbackSucceeds f := by
  cases f with
  | none => rfl
  | some r =>
    by_cases hs : r.status = 200
    · cases hb : r.body with
      | none =>
        simp [AirControlBaseAPI.loginFallbackStep, loginFallbackSucceeds,
          hs, hb, exceptOk]
      | some result =>
        by_cases hc : AirControlBaseAPI.login_fallback_ok result
        · cases hu : AirControlBaseAPI.loginFallbackUid result with
          | error e2 =>
            simp [AirControlBaseAPI.loginFallbackStep,
              loginFallbackSucceeds, hs, hb, hc, hu, exceptOk]
          | ok uid =>
            simp [AirControlBaseAPI.loginFallbackStep,
              loginFallbackSucceeds, hs, hb, hc, hu, exceptOk]
        · simp [AirControlBaseAPI.loginFallbackStep,
            loginFallbackSucceeds, hs, hb, hc, exceptOk]
    · simp [AirControlBaseAPI.loginFallbackStep, loginFallbackSucceeds,
        hs, exceptOk]

theorem loginFallbackStep_session (st : APIState) (e : String)
    (f : Option HttpResponse)
    (h : exceptOk (AirControlBaseAPI.loginFallbackStep st e f).result =
      true) :
    (AirControlBaseAPI.loginFallbackStep st e f).state.session_id.isSome =
      true := by
  cases f with
  | none => simp [AirControlBaseAPI.loginFallbackStep, exceptOk] at h
  | some r =>
    by_cases hs : r.status = 200
    · cases hb : r.body with
      | none =>
        simp [AirControlBaseAPI.loginFallbackStep, hs, hb, exceptOk] at h
      | some result =>
        by_cases hc : AirControlBaseAPI.login_fallback_ok result
        · cases hu : AirControlBaseAPI.loginFallbackUid result with
          | error e2 =>
            simp [AirControlBaseAPI.loginFallbackStep, hs, hb, hc, hu,
              exceptOk] at h
          | ok uid =>
            simp [AirControlBaseAPI.loginFallbackStep, hs, hb, hc, hu]
        · simp [AirControlBaseAPI.loginFallbackStep, hs, hb, hc,
            exceptOk] at h
    · simp [AirControlBaseAPI.loginFallbackStep, hs, exceptOk] at h

theorem loginFallbackStep_error_shape (st : APIState) (e : String)
    (f : Option HttpResponse) :
    (AirControlBaseAPI.loginFallbackStep st e f).result = Except.ok () ∨
    (AirControlBaseAPI.loginFallbackStep st e f).result =
      Except.error ("Authentication failed: " ++ e) := by
  cases f with
  | none => exact Or.inr rfl
  | some r =>
    by_cases hs : r.status = 200
    · cases hb : r.body with
      | none =>
        exact Or.inr (by
          simp [AirControlBaseAPI.loginFallbackStep, hs, hb])
      | some result =>
        by_cases hc : AirControlBaseAPI.login_fallback_ok result
        · cases hu : AirControlBaseAPI.loginFallbackUid result with
          | error e2 =>
            exact Or.inr (by
              simp [AirControlBaseAPI.loginFallbackStep, hs, hb, hc, hu])
          | ok uid =>
            exact Or.inl (by
              simp [AirControlBaseAPI.loginFallbackStep, hs, hb, hc, hu])
        · exact Or.inr (by
            simp [AirControlBaseAPI.loginFallbackStep, hs, hb, hc])
    · exact Or.inr (by simp [AirControlBaseAPI.loginFallbackStep, hs])

/-! ## Claim theorems -/

/-- C1: the coordinator is configured with a fixed 30-second update
interval, but its update method calls `api.ensure_authenticated()` and
`api.getDetails()`, neither of which `AirControlBaseAPI` defines — so
every refresh raises `AttributeError`, rewrapped as `UpdateFailed`, and
never yields the device list, whatever the API client's own
device-listing call would have returned. -/
theorem coordinator_refresh_always_fails :
    Coordinator.update_interval_seconds = 30 ∧
    (Coordinator.apiClientMethods.contains "ensure_authenticated" =
      false) ∧
    (Coordinator.apiClientMethods.contains "getDetails" = false) ∧
    ∀ (st : APIState) (now : Int) (presp fresp : Option HttpResponse),
      Coordinator.async_update_data st now presp fresp =
        Except.error "Error fetching data: AttributeError" := by
  refine ⟨rfl, rfl, rfl, fun st now presp fresp => rfl⟩

/-- C3: in a client state where no login has succeeded (`_user_id`
still `None`) and no control call has been made (`_last_update_time`
still `0`), both `control_device` and `get_devices` raise the
not-authenticated error, leave the state unchanged, and issue no HTTP
request. -/
theorem api_unauthenticated_calls_rejected (st : APIState) (now : Int)
    (c o : JVal) (p1 f1 p2 f2 : Option HttpResponse)
    (hu : st.user_id = JVal.null) (ht : st.last_update_time = 0) :
    AirControlBaseAPI.control_device st now c o p1 f1 =
      { result := Except.error "Not authenticated - please login first"
        state := st, requests := [] } ∧
    AirControlBaseAPI.get_devices st now p2 f2 =
      { result := Except.error "Not authenticated - please login first"
        state := st, requests := [] } := by
  constructor
  · unfold AirControlBaseAPI.control_device
    simp [hu, jtruthy]
  · unfold AirControlBaseAPI.get_devices
    simp [hu, ht, jtruthy]

/-- Witness for C3 at the freshly constructed client. -/
theorem api_unauthenticated_calls_rejected_witness :
    (APIState.init "e@x" "pw" 5000).user_id = JVal.null ∧
    (APIState.init "e@x" "pw" 5000).last_update_time = 0 ∧
    AirControlBaseAPI.control_device (APIState.init "e@x" "pw" 5000) 7
        JVal.null JVal.null none none =
      { result := Except.error "Not authenticated - please login first"
        state := APIState.init "e@x" "pw" 5000, requests := [] } ∧
    AirControlBaseAPI.get_devices (APIState.init "e@x" "pw" 5000) 7
        none none =
      { result := Except.error "Not authenticated - please login first"
        state := APIState.init "e@x" "pw" 5000, requests := [] } :=
  ⟨rfl, rfl,
    (api_unauthenticated_calls_rejected (APIState.init "e@x" "pw" 5000)
      7 JVal.null JVal.null none none none none rfl rfl).1,
    (api_unauthenticated_calls_rejected (APIState.init "e@x" "pw" 5000)
      7 JVal.null JVal.null none none none none rfl rfl).2⟩

/-- C7: the primary and fallback response-success checks disagree on
concrete server responses: a body with `code = "200"` passes `login`'s
primary check but not its fallback check, and a body with `code = "0"`
passes `login`'s fallback check (and `control_device`'s and
`get_devices`' primary checks) but not `control_device`'s or
`get_devices`' fallback checks, which accept only the integer `0`. -/
theorem response_success_checks_disagree :
    (AirControlBaseAPI.login_primary_ok [("code", JVal.str "200")] =
        true ∧
      AirControlBaseAPI.login_fallback_ok [("code", JVal.str "200")] =
        false) ∧
    (AirControlBaseAPI.login_fallback_ok [("code", JVal.str "0")] =
        true ∧
      AirControlBaseAPI.control_primary_ok [("code", JVal.str "0")] =
        true ∧
      AirControlBaseAPI.get_devices_primary_ok [("code", JVal.str "0")] =
        true ∧
      AirControlBaseAPI.control_fallback_ok [("code", JVal.str "0")] =
        false ∧
      AirControlBaseAPI.get_devices_fallback_ok [("code", JVal.str "0")] =
        false) ∧
    (AirControlBaseAPI.login_primary_ok
        [("status", JVal.str "success")] = true ∧
      AirControlBaseAPI.login_fallback_ok
        [("status", JVal.str "success")] = false) :=
  ⟨⟨rfl, rfl⟩, ⟨rfl, rfl, rfl, rfl, rfl⟩, ⟨rfl, rfl⟩⟩

/-- C9: whenever `control_device` passes its authentication check, it
advances `_last_update_time` to the call time before issuing any HTTP
request, so the timestamp is advanced even when every request attempt
then fails and the call raises. -/
theorem control_device_timestamp_advances (st : APIState) (now : Int)
    (c o : JVal) (p f : Option HttpResponse)
    (h : jtruthy st.user_id = true) :
    (AirControlBaseAPI.control_device st now c o p f).state.last_update_time =
      now := by
  rw [control_device_state_eq st now c o p f h]

/-- Witness for C9: a control call whose both HTTP attempts fail still
advances the timestamp while raising. -/
theorem control_device_timestamp_advances_witness :
    jtruthy authedState.user_id = true ∧
    (AirControlBaseAPI.control_device authedState 9 JVal.null JVal.null
        none none).result =
      Except.error "Device control failed: network error" ∧
    (AirControlBaseAPI.control_device authedState 9 JVal.null JVal.null
        none none).state.last_update_time = 9 :=
  ⟨rfl, rfl,
    control_device_timestamp_advances authedState 9 JVal.null JVal.null
      none none rfl⟩

/-- C8: a `get_devices` call made less than
`avoid_refresh_status_on_update_in_ms` milliseconds (constructor
default `5000`) after a `control_device` call that passed its
authentication check returns the empty list immediately — no HTTP
request, no authentication check, state untouched. -/
theorem get_devices_throttled_after_control (st : APIState)
    (t now : Int) (c o : JVal) (p f p2 f2 : Option HttpResponse)
    (hauth : jtruthy st.user_id = true) (ht : 0 < t)
    (hwin : now - t < st.avoid_refresh_status_on_update_in_ms) :
    defaultAvoidRefreshMs = 5000 ∧
    AirControlBaseAPI.get_devices
        ((AirControlBaseAPI.control_device st t c o p f).state) now p2
        f2 =
      { result := Except.ok []
        state := (AirControlBaseAPI.control_device st t c o p f).state
        requests := [] } := by
  refine ⟨rfl, ?_⟩
  rw [control_device_state_eq st t c o p f hauth]
  unfold AirControlBaseAPI.get_devices
  simp only [ht, hwin, decide_True, Bool.true_and, if_true]

/-- Witness for C8: a control call at time 1 (with both HTTP attempts
failing) throttles a listing 999 ms later. -/
theorem get_devices_throttled_after_control_witness :
    jtruthy authedState.user_id = true ∧ (0 : Int) < 1 ∧
    ((1000 : Int) - 1 <
      authedState.avoid_refresh_status_on_update_in_ms) ∧
    AirControlBaseAPI.get_devices
        ((AirControlBaseAPI.control_device authedState 1 JVal.null
          JVal.null none none).state) 1000 none none =
      { result := Except.ok []
        state := (AirControlBaseAPI.control_device authedState 1
          JVal.null JVal.null none none).state
        requests := [] } :=
  ⟨rfl, by decide, by decide,
    (get_devices_throttled_after_control authedState 1 1000 JVal.null
      JVal.null none none none none rfl (by decide) (by decide)).2⟩

/-- C4: `login` always makes the JSON-body attempt, and exactly when
that attempt fails — for any reason — it makes exactly one form-encoded
fallback attempt; it succeeds iff either attempt succeeds (recording
the user id and session cookie of the succeeding attempt), and
otherwise raises an `Authentication failed` error, which therefore only
happens after both attempts have failed. -/
theorem login_json_then_form_fallback (st : APIState)
    (presp fresp : Option HttpResponse) :
    ((AirControlBaseAPI.login st presp fresp).requests =
      if exceptOk (AirControlBaseAPI.loginPrimary st presp) = true then
        [ReqKind.json]
      else [ReqKind.json, ReqKind.form]) ∧
    (exceptOk (AirControlBaseAPI.login st presp fresp).result =
      (exceptOk (AirControlBaseAPI.loginPrimary st presp) ||
        loginFallbackSucceeds fresp)) ∧
    ((AirControlBaseAPI.login st presp fresp).result = Except.ok () ∨
      ∃ m, (AirControlBaseAPI.login st presp fresp).result =
        Except.error ("Authentication failed: " ++ m)) ∧
    (∀ st1, AirControlBaseAPI.loginPrimary st presp = Except.ok st1 →
      (AirControlBaseAPI.login st presp fresp).state = st1 ∧
      st1.session_id.isSome = true) ∧
    (exceptOk (AirControlBaseAPI.loginPrimary st presp) = false →
      loginFallbackSucceeds fresp = true →
      (AirControlBaseAPI.login st presp fresp).state.session_id.isSome =
        true) := by
  cases hp : AirControlBaseAPI.loginPrimary st presp with
  | ok st1 =>
    have hL : AirControlBaseAPI.login st presp fresp =
        { result := Except.ok (), state := st1
          requests := [ReqKind.json] } := by
      simp only [AirControlBaseAPI.login, hp]
    refine ⟨?_, ?_, ?_, ?_, ?_⟩
    · simp [hL, hp, exceptOk]
    · simp [hL, hp, exceptOk]
    · exact Or.inl (by simp [hL])
    · intro st2 h2
      injection h2 with h3
      subst h3
      exact ⟨by simp [hL], loginPrimary_ok_session st presp st1 hp⟩
    · intro hfalse
      simp [exceptOk] at hfalse
  | error e =>
    have hL : AirControlBaseAPI.login st presp fresp =
        AirControlBaseAPI.loginFallbackStep st e fresp := by
      simp only [AirControlBaseAPI.login, hp]
    refine ⟨?_, ?_, ?_, ?_, ?_⟩
    · rw [hL, loginFallbackStep_requests]
      simp [hp, exceptOk]
    · rw [hL, loginFallbackStep_ok]
      simp [hp, exceptOk]
    · rcases loginFallbackStep_error_shape st e fresp with h | h
      · exact Or.inl (hL ▸ h)
      · exact Or.inr ⟨e, hL ▸ h⟩
    · intro st1 h1
      exact Except.noConfusion h1
    · intro _ hfb
      rw [hL]
      apply loginFallbackStep_session
      rw [loginFallbackStep_ok]
      exact hfb

/-- Witness for C4: with the JSON attempt failing on a network error
and the form-encoded fallback answered successfully, `login` issues
both requests, succeeds, and records a session cookie. -/
theorem login_json_then_form_fallback_witness :
    exceptOk (AirControlBaseAPI.loginPrimary authedState none) =
      false ∧
    loginFallbackSucceeds goodLoginFallbackResp = true ∧
    (AirControlBaseAPI.login authedState none
      goodLoginFallbackResp).requests =
      [ReqKind.json, ReqKind.form] ∧
    (AirControlBaseAPI.login authedState none
      goodLoginFallbackResp).state.session_id.isSome = true :=
  ⟨rfl, rfl,
    by
      have h := (login_json_then_form_fallback authedState none
        goodLoginFallbackResp).1
      exact h.trans (by rfl),
    (login_json_then_form_fallback authedState none
      goodLoginFallbackResp).2.2.2.2 rfl rfl⟩

/-- C5: the config flow creates an entry exactly when `test_connection`
returns `True`; `test_connection` returns `True` exactly when both
`login` and the subsequent `get_devices` complete without raising; and
whenever validation fails the flow re-shows the form with an error and
creates no entry. -/
theorem config_flow_entry_iff_validation
    (cred : ConfigFlow.Credentials) (now : Int)
    (lp lf dp df : Option HttpResponse) :
    (ConfigFlow.async_step_user (some cred) now lp lf dp df =
        ConfigFlow.FlowResult.createEntry cred.email cred.email
          cred.password ↔
      (AirControlBaseAPI.test_connection
        (APIState.init cred.email cred.password defaultAvoidRefreshMs)
        now lp lf dp df).1 = true) ∧
    ((AirControlBaseAPI.test_connection
        (APIState.init cred.email cred.password defaultAvoidRefreshMs)
        now lp lf dp df).1 = true ↔
      (exceptOk (AirControlBaseAPI.login
          (APIState.init cred.email cred.password defaultAvoidRefreshMs)
          lp lf).result = true ∧
        exceptOk (AirControlBaseAPI.get_devices
          (AirControlBaseAPI.login
            (APIState.init cred.email cred.password
              defaultAvoidRefreshMs) lp lf).state now dp df).result =
          true)) ∧
    (ConfigFlow.async_step_user (some cred) now lp lf dp df =
        ConfigFlow.FlowResult.showForm (some "invalid_auth") ↔
      (AirControlBaseAPI.test_connection
        (APIState.init cred.email cred.password defaultAvoidRefreshMs)
        now lp lf dp df).1 = false) := by
  refine ⟨?_, ?_, ?_⟩
  · by_cases htc : (AirControlBaseAPI.test_connection
        (APIState.init cred.email cred.password defaultAvoidRefreshMs)
        now lp lf dp df).1 = true
    · simp [ConfigFlow.async_step_user, htc]
    · simp [ConfigFlow.async_step_user, htc]
  · unfold AirControlBaseAPI.test_connection
    cases hl : (AirControlBaseAPI.login
        (APIState.init cred.email cred.password defaultAvoidRefreshMs)
        lp lf).result with
    | error e => simp [hl, exceptOk]
    | ok u =>
      cases hd : (AirControlBaseAPI.get_devices
          (AirControlBaseAPI.login
            (APIState.init cred.email cred.password
              defaultAvoidRefreshMs) lp lf).state now dp df).result with
      | error e2 => simp [hl, hd, exceptOk]
      | ok ds => simp [hl, hd, exceptOk]
  · by_cases htc : (AirControlBaseAPI.test_connection
        (APIState.init cred.email cred.password defaultAvoidRefreshMs)
        now lp lf dp df).1 = true
    · simp [ConfigFlow.async_step_user, htc]
    · simp only [Bool.not_eq_true] at htc
      simp [ConfigFlow.async_step_user, htc]

theorem async_set_fan_mode_device_of_ok (api : APIState) (dev : JObj)
    (f : String) (now : Int) (p fr : Option HttpResponse)
    (hok : (AirControlBaseClimate.async_set_fan_mode api dev f now p
      fr).ok = true) :
    (AirControlBaseClimate.async_set_fan_mode api dev f now p
      fr).device =
      jset dev "wind" (JVal.str (AirControlBaseClimate.api_fan_mode f)) := by
  unfold AirControlBaseClimate.async_set_fan_mode at hok ⊢
  by_cases hv : (["low", "medium", "high", "auto"].contains f) = true
  · simp only [hv, Bool.not_true, Bool.false_eq_true, if_false] at hok ⊢
    simp only [hok, if_true]
  · simp only [Bool.not_eq_true] at hv
    simp only [hv, Bool.not_false, if_true] at hok
    simp at hok

theorem async_set_hvac_mode_reads_of_ok (api : APIState) (dev : JObj)
    (m : AirControlBaseClimate.HVACMode) (now : Int)
    (p fr : Option HttpResponse)
    (hok : (AirControlBaseClimate.async_set_hvac_mode api dev m now p
      fr).ok = true) :
    jget (AirControlBaseClimate.async_set_hvac_mode api dev m now p
        fr).device "mode" =
      JVal.str (AirControlBaseClimate.mode_map m) ∧
    jget (AirControlBaseClimate.async_set_hvac_mode api dev m now p
        fr).device "power" =
      JVal.str
        (if m = AirControlBaseClimate.HVACMode.off then "n" else "y") := by
  unfold AirControlBaseClimate.async_set_hvac_mode at hok ⊢
  simp only at hok ⊢
  simp only [hok, if_true]
  by_cases hc : (decide (m ≠ AirControlBaseClimate.HVACMode.off) &&
      jeqStr (jget dev "power") "n") = true
  · simp only [hc, if_true]
    by_cases hw : jhasKey
        (jset (jset (jset dev "mode"
            (JVal.str (AirControlBaseClimate.mode_map m))) "power"
          (JVal.str (if m = AirControlBaseClimate.HVACMode.off then "n"
            else "y"))) "wind" (JVal.str "auto")) "wind" = true
    · simp only [hw, if_true]
      constructor
      · rw [jget_jset_ne _ _ _ _ (by decide),
          jget_jset_ne _ _ _ _ (by decide), jget_jset_same]
      · rw [jget_jset_ne _ _ _ _ (by decide), jget_jset_same,
          jget_jset_ne _ _ _ _ (by decide), jget_jset_same]
    · simp only [Bool.not_eq_true] at hw
      simp only [hw, Bool.false_eq_true, if_false]
      constructor
      · rw [jget_jset_ne _ _ _ _ (by decide), jget_jset_same]
      · rw [jget_jset_same, jget_jset_ne _ _ _ _ (by decide),
          jget_jset_same]
  · simp only [Bool.not_eq_true] at hc
    simp only [hc, Bool.false_eq_true, if_false]
    by_cases hw : jhasKey (jset (jset dev "mode"
        (JVal.str (AirControlBaseClimate.mode_map m))) "power"
      (JVal.str (if m = AirControlBaseClimate.HVACMode.off then "n"
        else "y"))) "wind" = true
    · simp only [hw, if_true]
      constructor
      · rw [jget_jset_ne _ _ _ _ (by decide),
          jget_jset_ne _ _ _ _ (by decide), jget_jset_same]
      · rw [jget_jset_ne _ _ _ _ (by decide), jget_jset_same,
          jget_jset_same]
    · simp only [Bool.not_eq_true] at hw
      simp only [hw, Bool.false_eq_true, if_false]
      constructor
      · rw [jget_jset_ne _ _ _ _ (by decide), jget_jset_same]
      · rw [jget_jset_same, jget_jset_same]

/-- C10: fan-speed names round-trip through the `mid`/`medium`
renaming: `async_set_fan_mode` maps `"medium"` to the vendor value
`"mid"` and leaves the other supported modes unchanged, the `fan_mode`
property maps vendor `"mid"` back to `"medium"` and leaves other values
unchanged, and after a successful `async_set_fan_mode f` the `fan_mode`
property yields `f` again. -/
theorem fan_mode_roundtrip (api : APIState) (dev : JObj) (f : String)
    (now : Int) (p fr : Option HttpResponse)
    (hf : f ∈ AirControlBaseClimate.fan_modes)
    (hok : (AirControlBaseClimate.async_set_fan_mode api dev f now p
      fr).ok = true) :
    AirControlBaseClimate.api_fan_mode "medium" = "mid" ∧
    (f ≠ "medium" → AirControlBaseClimate.api_fan_mode f = f) ∧
    (∀ d : JObj, jget d "wind" = JVal.str "mid" →
      AirControlBaseClimate.fan_mode d = JVal.str "medium") ∧
    (∀ d : JObj, jeqStr (jget d "wind") "mid" = false →
      AirControlBaseClimate.fan_mode d = jget d "wind") ∧
    AirControlBaseClimate.fan_mode
      (AirControlBaseClimate.async_set_fan_mode api dev f now p
        fr).device = JVal.str f := by
  refine ⟨rfl, ?_, ?_, ?_, ?_⟩
  · intro hne
    simp [AirControlBaseClimate.api_fan_mode, hne]
  · intro d hd
    simp [AirControlBaseClimate.fan_mode, hd, jeqStr]
  · intro d hd
    simp [AirControlBaseClimate.fan_mode, hd]
  · have hmem : f = "auto" ∨ f = "low" ∨ f = "medium" ∨ f = "high" := by
      simpa [AirControlBaseClimate.fan_modes] using hf
    rcases hmem with rfl | rfl | rfl | rfl <;>
      rw [async_set_fan_mode_device_of_ok api dev _ now p fr hok] <;>
      simp [AirControlBaseClimate.fan_mode,
        AirControlBaseClimate.api_fan_mode, jget_jset_same, jeqStr]

/-- Witness for C10 at `f = "medium"` against a successful control
response. -/
theorem fan_mode_roundtrip_witness :
    "medium" ∈ AirControlBaseClimate.fan_modes ∧
    (AirControlBaseClimate.async_set_fan_mode authedState dev0 "medium"
      5 goodControlResp none).ok = true ∧
    AirControlBaseClimate.fan_mode
      (AirControlBaseClimate.async_set_fan_mode authedState dev0
        "medium" 5 goodControlResp none).device = JVal.str "medium" :=
  ⟨by decide, rfl,
    (fan_mode_roundtrip authedState dev0 "medium" 5 goodControlResp
      none (by decide) rfl).2.2.2.2⟩

/-- Counterexample to C2: `FAN_ONLY` is in the entity's supported mode
list, yet after a successful `async_set_hvac_mode FAN_ONLY` the local
device carries the vendor mode string `"fan"` (written by `mode_map`)
while the `hvac_mode` property only recognises `"fan_only"`, so the
property reads back `OFF`, not `FAN_ONLY`. -/
theorem hvac_fan_only_roundtrip_fails :
    AirControlBaseClimate.HVACMode.fan_only ∈
      AirControlBaseClimate.hvac_modes ∧
    (AirControlBaseClimate.async_set_hvac_mode authedState dev0
      AirControlBaseClimate.HVACMode.fan_only 5 goodControlResp
      none).ok = true ∧
    AirControlBaseClimate.mode_map
      AirControlBaseClimate.HVACMode.fan_only = "fan" ∧
    jget (AirControlBaseClimate.async_set_hvac_mode authedState dev0
        AirControlBaseClimate.HVACMode.fan_only 5 goodControlResp
        none).device "mode" = JVal.str "fan" ∧
    AirControlBaseClimate.hvac_mode
      (AirControlBaseClimate.async_set_hvac_mode authedState dev0
        AirControlBaseClimate.HVACMode.fan_only 5 goodControlResp
        none).device = AirControlBaseClimate.HVACMode.off ∧
    AirControlBaseClimate.HVACMode.off ≠
      AirControlBaseClimate.HVACMode.fan_only :=
  ⟨by decide, rfl, rfl, rfl, rfl, by decide⟩

/-- C2 as amended: the host-to-vendor and vendor-to-host mode
translations are mutually inverse on `OFF`, `COOL`, `HEAT` and `DRY` —
after a successful `async_set_hvac_mode m` for those modes the
`hvac_mode` property yields `m` again — but not on `FAN_ONLY` (see the
counterexample: there the property yields `OFF`). -/
theorem hvac_mode_roundtrip_amended (api : APIState) (dev : JObj)
    (m : AirControlBaseClimate.HVACMode) (now : Int)
    (p fr : Option HttpResponse)
    (hm : m ∈ [AirControlBaseClimate.HVACMode.off,
      AirControlBaseClimate.HVACMode.cool,
      AirControlBaseClimate.HVACMode.heat,
      AirControlBaseClimate.HVACMode.dry])
    (hok : (AirControlBaseClimate.async_set_hvac_mode api dev m now p
      fr).ok = true) :
    AirControlBaseClimate.hvac_mode
      (AirControlBaseClimate.async_set_hvac_mode api dev m now p
        fr).device = m := by
  obtain ⟨hmode, hpower⟩ :=
    async_set_hvac_mode_reads_of_ok api dev m now p fr hok
  have hmem : m = AirControlBaseClimate.HVACMode.off ∨
      m = AirControlBaseClimate.HVACMode.cool ∨
      m = AirControlBaseClimate.HVACMode.heat ∨
      m = AirControlBaseClimate.HVACMode.dry := by
    simpa using hm
  rcases hmem with rfl | rfl | rfl | rfl <;>
    simp_all [AirControlBaseClimate.hvac_mode,
      AirControlBaseClimate.is_on, AirControlBaseClimate.mode_map,
      jeqStr]

/-- Witness for the amended C2 at `COOL`. -/
theorem hvac_mode_roundtrip_amended_witness :
    AirControlBaseClimate.HVACMode.cool ∈
      [AirControlBaseClimate.HVACMode.off,
        AirControlBaseClimate.HVACMode.cool,
        AirControlBaseClimate.HVACMode.heat,
        AirControlBaseClimate.HVACMode.dry] ∧
    (AirControlBaseClimate.async_set_hvac_mode authedState dev0
      AirControlBaseClimate.HVACMode.cool 5 goodControlResp none).ok =
      true ∧
    AirControlBaseClimate.hvac_mode
      (AirControlBaseClimate.async_set_hvac_mode authedState dev0
        AirControlBaseClimate.HVACMode.cool 5 goodControlResp
        none).device = AirControlBaseClimate.HVACMode.cool :=
  ⟨by decide, rfl,
    hvac_mode_roundtrip_amended authedState dev0
      AirControlBaseClimate.HVACMode.cool 5 goodControlResp none
      (by decide) rfl⟩

/-- Counterexample to C6: the entity neither declares swing support in
its feature flags nor defines a swing operation. -/
theorem swing_not_supported :
    AirControlBaseClimate.ClimateEntityFeature.SWING_MODE ∉
      AirControlBaseClimate.supported_features ∧
    "async_set_swing_mode" ∉ AirControlBaseClimate.entityOperations :=
  ⟨by decide, by decide⟩

/-- C6 as amended: the climate entity declares target-temperature and
fan-mode support and exposes temperature, HVAC-mode and fan-mode
operations that send control/operation payloads to `control_device`
(witnessed by the fan-mode operation issuing a request), but it
declares no swing support and exposes no swing operation. -/
theorem climate_operations_amended :
    AirControlBaseClimate.ClimateEntityFeature.TARGET_TEMPERATURE ∈
      AirControlBaseClimate.supported_features ∧
    AirControlBaseClimate.ClimateEntityFeature.FAN_MODE ∈
      AirControlBaseClimate.supported_features ∧
    AirControlBaseClimate.ClimateEntityFeature.SWING_MODE ∉
      AirControlBaseClimate.supported_features ∧
    "async_set_temperature" ∈ AirControlBaseClimate.entityOperations ∧
    "async_set_hvac_mode" ∈ AirControlBaseClimate.entityOperations ∧
    "async_set_fan_mode" ∈ AirControlBaseClimate.entityOperations ∧
    "async_set_swing_mode" ∉ AirControlBaseClimate.entityOperations ∧
    (AirControlBaseClimate.async_set_fan_mode authedState dev0 "low" 5
      goodControlResp none).requests = [ReqKind.json] :=
  ⟨by decide, by decide, by decide, by decide, by decide, by decide,
    by decide, rfl⟩
